import Mathlib

/-!
Verification of the mpv MQTT controller core (mpv-mqtt-controller.py).
The Python source is shallowly embedded below: pure helpers become Lean
functions, the controller object becomes an explicit record threaded
through the operations, and the effects of the outside world (process
spawning, sockets, the filesystem) are passed in as explicit inputs.
Floating point numbers are modelled by rationals.
-/

namespace Mqtt

/-! ## Natural sort (natural_sort_key, source lines 44-50)

The Python key is `[int(t) if t.isdigit() else t.lower() for t in re.split((\d+), s)]`:
the string is split at maximal digit runs (the split list starts and ends with a
possibly empty non-digit chunk and alternates), digit runs become integers and the
other chunks are lowercased.  Characters are treated as ASCII here (the Python
`str.lower` and `\d` are Unicode-aware; file names in scope are ASCII). -/

/-- One element of a natural-sort key: a lowercased non-digit chunk or the
numeric value of a digit run. -/
inductive NTok where
  | str (cs : List Char)
  | num (n : Nat)
deriving DecidableEq, Repr

/-- Group a character list into maximal runs of digit / non-digit characters. -/
def runs : List Char → List (List Char)
  | [] => []
  | c :: cs =>
    match runs cs with
    | [] => [[c]]
    | r :: rs =>
      match r with
      | [] => [c] :: r :: rs
      | d :: _ => if c.isDigit = d.isDigit then (c :: r) :: rs else [c] :: r :: rs

/-- Decimal value of a digit run (Python int of the chunk). -/
def digitsVal (cs : List Char) : Nat :=
  cs.foldl (fun a c => a * 10 + (c.toNat - 48)) 0

/-- Turn one run into a key token: digit runs become numbers, the rest is
lowercased. -/
def natTok (r : List Char) : NTok :=
  if (r.headD 'a').isDigit then NTok.num (digitsVal r) else NTok.str (r.map Char.toLower)

/-- The natural-sort key of a string (natural_sort_key in the source).
Mirrors the shape of the Python re.split result: a leading and a trailing
empty string chunk appear when the string starts or ends with a digit run,
so keys always alternate str, num, str, num, ..., str. -/
def natural_sort_key (s : String) : List NTok :=
  let ts := (runs s.data).map natTok
  let ts1 :=
    match ts with
    | [] => [NTok.str []]
    | NTok.num _ :: _ => NTok.str [] :: ts
    | _ => ts
  match ts1.getLast? with
  | some (NTok.num _) => ts1 ++ [NTok.str []]
  | _ => ts1

/-- Python string `<` (code-point lexicographic). -/
def charsLt : List Char → List Char → Bool
  | _, [] => false
  | [], _ :: _ => true
  | a :: as, b :: bs => if a.toNat < b.toNat then true else if a = b then charsLt as bs else false

/-- Python `<` on key elements.  The mixed str/num cases never arise between
keys produced by natural_sort_key that get compared (keys alternate str and
num tokens positionally); Python would raise TypeError there, the value
chosen here is arbitrary. -/
def tokLt : NTok → NTok → Bool
  | NTok.num a, NTok.num b => decide (a < b)
  | NTok.str a, NTok.str b => charsLt a b
  | NTok.num _, NTok.str _ => true
  | NTok.str _, NTok.num _ => false

/-- Python list `<` on keys (lexicographic, shorter list first on a tie). -/
def keyLt : List NTok → List NTok → Bool
  | _, [] => false
  | [], _ :: _ => true
  | a :: as, b :: bs => if tokLt a b then true else if a = b then keyLt as bs else false

/-- Strict natural-sort order on strings: compare natural_sort_key values. -/
def natLt (s t : String) : Bool := keyLt (natural_sort_key s) (natural_sort_key t)

/-- Stable insertion used to model `sorted` / `list.sort`: `a` goes in front of
the first element not strictly below it, so earlier elements win ties. -/
def insSorted (lt : α → α → Bool) (a : α) : List α → List α
  | [] => [a]
  | b :: bs => if lt b a then b :: insSorted lt a bs else a :: b :: bs

/-- Stable sort by a strict comparator (insertion sort; Python `sorted` is a
stable sort driven by `<` on keys, and for a total key order every stable
sort agrees). -/
def sortByLt (lt : α → α → Bool) : List α → List α
  | [] => []
  | a :: as => insSorted lt a (sortByLt lt as)

/-- The Python call sorted with key natural_sort_key. -/
def sortNat (l : List String) : List String := sortByLt natLt l

/-! ## Playback state and mpv events (source lines 20-27, 209-249) -/

/-- A decoded JSON value carried in an mpv event field. -/
inductive MpvData where
  | b (v : Bool)
  | n (v : ℚ)
  | s (v : String)
deriving DecidableEq, Repr

/-- The current_state dictionary.  The numeric slots hold whatever the last
event stored, hence MpvData rather than a bare number. -/
structure PlaybackState where
  state : String
  media_content_id : Option String
  media_title : Option String
  volume : MpvData
  position : MpvData
  duration : MpvData
deriving DecidableEq, Repr

/-- Initial current_state from __init__ (lines 20-27). -/
def initial_state : PlaybackState :=
  { state := "idle", media_content_id := none, media_title := none,
    volume := MpvData.n 100, position := MpvData.n 0, duration := MpvData.n 0 }

/-- A decoded event object; each field is the result of dict .get (none when
the key is absent). -/
structure Event where
  event : Option String
  name : Option String
  data : Option MpvData
deriving DecidableEq, Repr

/-- Python truthiness of an optional event payload. -/
def truthy : Option MpvData → Bool
  | none => false
  | some (MpvData.b v) => v
  | some (MpvData.n q) => decide (q ≠ 0)
  | some (MpvData.s s) => decide (s ≠ "")

/-- os.path.basename for POSIX paths: everything after the last slash. -/
def pyBasename (s : String) : String := (s.splitOn "/").getLastD ""

/-- Result of process_event: the new state plus whether the phase-change and
the title-change notifications fired (the two print statements). -/
structure EventResult where
  st : PlaybackState
  phaseNotif : Bool
  titleNotif : Bool
deriving DecidableEq, Repr

/-- process_event (source lines 209-233).  Returns none exactly when the
Python raises: os.path.basename applied to a truthy non-string path payload
is a TypeError.  All other shapes are handled without error. -/
def process_event (cur : PlaybackState) (e : Event) : Option EventResult :=
  if e.event = some "property-change" then
    match e.name with
    | some "pause" =>
      let new_state := if truthy e.data then "paused" else "playing"
      if cur.state ≠ new_state then
        some ⟨{ cur with state := new_state }, true, false⟩
      else
        some ⟨cur, false, false⟩
    | some "path" =>
      if truthy e.data then
        match e.data with
        | some (MpvData.s p) =>
          let new_title := pyBasename p
          if cur.media_content_id ≠ some p ∨ cur.media_title ≠ some new_title then
            some ⟨{ cur with media_content_id := some p, media_title := some new_title },
                  false, true⟩
          else
            some ⟨cur, false, false⟩
        | _ => none
      else
        some ⟨cur, false, false⟩
    | some "time-pos" =>
      match e.data with
      | some d => some ⟨{ cur with position := d }, false, false⟩
      | none => some ⟨cur, false, false⟩
    | some "duration" =>
      match e.data with
      | some d => some ⟨{ cur with duration := d }, false, false⟩
      | none => some ⟨cur, false, false⟩
    | some "volume" =>
      match e.data with
      | some d => some ⟨{ cur with volume := d }, false, false⟩
      | none => some ⟨cur, false, false⟩
    | _ => some ⟨cur, false, false⟩
  else
    some ⟨cur, false, false⟩

/-- The state produced by a path property-change event that carries a
non-empty string: content id and title (the last path segment) both set. -/
def path_update (cur : PlaybackState) (p : String) : PlaybackState :=
  { cur with media_content_id := some p, media_title := some (pyBasename p) }

/-- Python numeric view of a stored value: bool is an int subclass, a string
has no numeric value (arithmetic on it raises TypeError). -/
def pyNum : MpvData → Option ℚ
  | MpvData.n q => some q
  | MpvData.b v => some (if v then 1 else 0)
  | MpvData.s _ => none

/-- Python comparison of abs of a difference against a threshold: none
models a TypeError on non-numeric operands. -/
def absGt (x y : MpvData) (t : ℚ) : Option Bool :=
  match pyNum x, pyNum y with
  | some a, some b => some (decide (|a - b| > t))
  | _, _ => none

/-- should_publish_state (source lines 235-249).  The nesting mirrors the
short-circuit evaluation of the Python `or` chain; none models the
TypeError raised when a position or volume comparison hits a non-numeric
stored value. -/
def should_publish_state (cur prev : PlaybackState)
    (last_publish_time now publish_interval : ℚ) : Option Bool :=
  if cur.state ≠ prev.state then some true
  else if cur.media_content_id ≠ prev.media_content_id then some true
  else if cur.media_title ≠ prev.media_title then some true
  else
    match absGt cur.position prev.position (1/2) with
    | none => none
    | some true => some true
    | some false =>
      match absGt cur.volume prev.volume 1 with
      | none => none
      | some true => some true
      | some false => some (decide (now - last_publish_time ≥ publish_interval))

/-! ## Media directory and playlist building (source lines 52-127)

The media directory tree is a finite tree of named files and directories;
child lists are kept in listdir order.  Symbolic links to files count as
files here; the symlink cycle guard of os.walk with followlinks is not
modelled (no claim depends on it and a plain tree has no cycles). -/

/-- A node of the media directory tree. -/
inductive FsNode where
  | file (name : String)
  | dir (name : String) (children : List FsNode)
deriving Repr

/-- Names of the plain files among a list of children. -/
def fileNamesOf (cs : List FsNode) : List String :=
  cs.filterMap fun c =>
    match c with
    | FsNode.file n => some n
    | FsNode.dir _ _ => none

/-- Natural-sort a (directory name, collected files) list by name; this is
the dirs.sort call that fixes the os.walk visiting order. -/
def sortPairs (l : List (String × List String)) : List (String × List String) :=
  sortByLt (fun a b => natLt a.1 b.1) l

mutual
/-- Files collected by os.walk below one visited directory node, in
traversal order: the directory reports its own pattern-matching files
(filenames natural-sorted, then filtered), then each subdirectory subtree
in natural-sorted name order, depth first. -/
def walkNode (pat : String → Bool) (path : String) : FsNode → List String
  | FsNode.file _ => []
  | FsNode.dir n cs =>
    ((sortNat (fileNamesOf cs)).filter pat).map (fun f => path ++ "/" ++ n ++ "/" ++ f)
      ++ (sortPairs (walkDirs pat (path ++ "/" ++ n) cs)).flatMap Prod.snd

/-- The (name, subtree files) pairs of the directory children of a list of
nodes, in listdir order; sorted by the caller before concatenation. -/
def walkDirs (pat : String → Bool) (p : String) : List FsNode → List (String × List String)
  | [] => []
  | FsNode.file _ :: rest => walkDirs pat p rest
  | FsNode.dir m ds :: rest => (m, walkNode pat p (FsNode.dir m ds)) :: walkDirs pat p rest
end

/-- subdir_files of prepare_playlist (lines 81-105): the os.walk collection
over the subdirectories of the media root, the root tuple itself skipped
but its dirs list sorted so the subtrees are visited in natural order. -/
def scanSubdirFiles (pat : String → Bool) (mediaPath : String) (cs : List FsNode) : List String :=
  (sortPairs (walkDirs pat mediaPath cs)).flatMap Prod.snd

/-- root_files of prepare_playlist (lines 73-78): root-level files whose
name fully matches the pattern, in listdir order (sorted later). -/
def scanRootFiles (pat : String → Bool) (mediaPath : String) (cs : List FsNode) : List String :=
  cs.filterMap fun c =>
    match c with
    | FsNode.file n => if pat n then some (mediaPath ++ "/" ++ n) else none
    | FsNode.dir _ _ => none

/-- The configuration slice prepare_playlist reads: the media directory path
and re.fullmatch of the configured file_pattern, abstracted to a predicate
on file names. -/
structure Config where
  file_pattern : String → Bool
  media_dir : String

/-- The filesystem state prepare_playlist interacts with: the playlist file
content (lines, none when absent) and the media root child list (none when
the media directory does not exist). -/
structure FileSys where
  playlist_file : Option (List String)
  media_root : Option (List FsNode)

/-- The two scan failure modes of prepare_playlist, distinguished in the
source by the printed message (Media directory not found vs No media files
found matching the pattern); both paths return False to the caller. -/
inductive PrepErr where
  | dirNotFound
  | noMatch
deriving DecidableEq, Repr

/-- Outcome of prepare_playlist: the Python return value, the failure mode
if any, the resulting self.playlist, whether a directory scan ran, and the
playlist file content afterwards. -/
structure PrepOut where
  ok : Bool
  err : Option PrepErr
  playlist : List String
  scanned : Bool
  playlist_file_after : Option (List String)
deriving DecidableEq, Repr

/-- Python str.strip with no argument: drop whitespace from both ends
(ASCII whitespace; the Python version also covers some rarer Unicode
space characters, none of which occur in the claims). -/
def pyStrip (s : String) : String :=
  String.mk ((((s.data.dropWhile Char.isWhitespace).reverse).dropWhile Char.isWhitespace).reverse)

/-- The try-block of prepare_playlist (source lines 66-127): the fresh
directory scan.  cur is the current self.playlist, left in place on
failure. -/
def prepare_scan (cfg : Config) (fs : FileSys) (cur : List String) : PrepOut :=
  match fs.media_root with
  | none =>
    { ok := false, err := some PrepErr.dirNotFound, playlist := cur,
      scanned := false, playlist_file_after := fs.playlist_file }
  | some cs =>
    let root_sorted := sortNat (scanRootFiles cfg.file_pattern cfg.media_dir cs)
    let subdir_sorted := sortNat (scanSubdirFiles cfg.file_pattern cfg.media_dir cs)
    let files := root_sorted ++ subdir_sorted
    if files = [] then
      { ok := false, err := some PrepErr.noMatch, playlist := cur,
        scanned := true, playlist_file_after := fs.playlist_file }
    else
      { ok := true, err := none, playlist := files,
        scanned := true, playlist_file_after := some files }

/-- prepare_playlist (source lines 56-127): cache hit when force is false
and the playlist file exists, otherwise the fresh scan. -/
def prepare_playlist (cfg : Config) (force : Bool) (fs : FileSys) (cur : List String) : PrepOut :=
  if force = false then
    match fs.playlist_file with
    | some lines =>
      { ok := true, err := none,
        playlist := (lines.map pyStrip).filter (fun l => l ≠ ""),
        scanned := false, playlist_file_after := some lines }
    | none => prepare_scan cfg fs cur
  else
    prepare_scan cfg fs cur

/-- The final ordering exactly as the specification words it: natural-sorted
root files, then the subdirectory files in depth-first traversal order with
each directory level natural-sorted but with no further global sort of the
subdirectory list.  Stated only for comparison against the source-derived
prepare_playlist. -/
def spec_claimed_playlist (pat : String → Bool) (mediaPath : String) (cs : List FsNode) : List String :=
  sortNat (scanRootFiles pat mediaPath cs) ++ scanSubdirFiles pat mediaPath cs

/-! ## Process supervision and command handling (source lines 255-413)

The MPVController instance fields become a record; the outside world
(process spawning, log file opening, socket creation, IPC connection,
process termination timing) is an explicit input per call. -/

/-- The controller fields touched by start/stop/play.  mpv_process is none
when no Popen handle is stored, some running with running true while
poll() is None. -/
structure Ctrl where
  current_state : PlaybackState
  is_playing : Bool
  mpv_process : Option Bool
  mpv_log_handle : Bool
  ipc_socket : Bool
  stop_observation : Bool
  playlist : List String
deriving DecidableEq, Repr

/-- Environment outcomes consumed by start_mpv_drm: whether the log sink
opens, whether Popen raises, whether the control socket appears within the
10 second poll, whether the IPC connect succeeds. -/
structure StartWorld where
  log_opens : Bool
  popen_ok : Bool
  socket_appears : Bool
  ipc_connect_ok : Bool
deriving DecidableEq, Repr

/-- start_mpv_drm (source lines 255-347).  Returns the Python boolean result
plus the controller and filesystem afterwards. -/
def start_mpv_drm (cfg : Config) (w : StartWorld) (fs : FileSys) (c : Ctrl) : Bool × Ctrl × FileSys :=
  if c.mpv_process = some true then
    (true, c, fs)
  else
    let step1 : Option (Ctrl × FileSys) :=
      if fs.playlist_file = none then
        let r := prepare_playlist cfg true fs c.playlist
        if r.ok then
          some ({ c with playlist := r.playlist }, { fs with playlist_file := r.playlist_file_after })
        else none
      else some (c, fs)
    match step1 with
    | none => (false, c, fs)
    | some (c1, fs1) =>
      let c2 := { c1 with mpv_log_handle := w.log_opens }
      if ¬ w.popen_ok then
        let cFail := { c2 with
          is_playing := false
          current_state := { c2.current_state with state := "idle" } }
        (false, cFail, fs1)
      else
        let c3 := { c2 with mpv_process := some true }
        if ¬ w.socket_appears then (false, c3, fs1)
        else
          let c4 := { c3 with ipc_socket := true }
          if ¬ w.ipc_connect_ok then (false, c4, fs1)
          else
            let cOk := { c4 with
              is_playing := true
              current_state := { c4.current_state with
                state := "playing"
                media_content_id := c4.playlist.head?
                media_title := c4.playlist.head?.map pyBasename } }
            (true, cOk, fs1)

/-- handle_play_command (source lines 404-408). -/
def handle_play_command (cfg : Config) (w : StartWorld) (fs : FileSys) (c : Ctrl) : Bool × Ctrl × FileSys :=
  let r := prepare_playlist cfg false fs c.playlist
  if r.ok then
    start_mpv_drm cfg w { fs with playlist_file := r.playlist_file_after } { c with playlist := r.playlist }
  else
    (false, c, fs)

/-- Environment outcomes consumed by stop_mpv: whether terminate raises and
whether the process exits within the 5 second wait. -/
structure StopWorld where
  terminate_raises : Bool
  exits_within_5 : Bool
deriving DecidableEq, Repr

/-- The observable termination steps stop_mpv performs on the process. -/
inductive StopAct where
  | terminate
  | wait
  | kill
deriving DecidableEq, Repr

/-- stop_mpv (source lines 349-387): cancel observation, close the IPC
socket, and if a process handle is stored terminate it (graceful wait with
a 5 second ceiling, kill on timeout, any terminate error swallowed), then
clear the handle, reset the state to idle and close the log sink.  Total
function: every failure of a sub-step is absorbed, nothing propagates. -/
def stop_mpv (c : Ctrl) (w : StopWorld) : Ctrl × List StopAct :=
  let c1 := { c with stop_observation := true, ipc_socket := false }
  match c1.mpv_process with
  | none => (c1, [])
  | some _ =>
    let tr :=
      if w.terminate_raises then [StopAct.terminate]
      else if w.exits_within_5 then [StopAct.terminate, StopAct.wait]
      else [StopAct.terminate, StopAct.wait, StopAct.kill]
    let c2 := { c1 with
      mpv_process := none
      is_playing := false
      mpv_log_handle := false
      current_state := { c1.current_state with
        state := "idle"
        media_content_id := none
        media_title := none
        position := MpvData.n 0
        duration := MpvData.n 0 } }
    (c2, tr)

/-! ## Theorems -/

/-- Helper: on the fresh-scan path (force set, or no cached playlist file)
prepare_playlist runs the directory scan. -/
theorem prepare_playlist_fresh (cfg : Config) (force : Bool) (fs : FileSys)
    (cur : List String) (h : force = true ∨ fs.playlist_file = none) :
    prepare_playlist cfg force fs cur = prepare_scan cfg fs cur := by
  rcases h with h | h
  · subst h
    simp [prepare_playlist]
  · cases force <;> simp [prepare_playlist, h]

/-- Claim C9: the ordering key of the builder is natural sort.  The key of
track10.mp4 splits into alternating non-digit and digit runs with the digit
runs read as integers, keys are case-insensitive on non-digit runs, digit
runs compare numerically (track2 below track10), and sorting the three
given names with this key yields track1, track2, track10. -/
theorem natural_sort_key_c9 :
    sortNat ["track10.mp4", "track2.mp4", "track1.mp4"]
      = ["track1.mp4", "track2.mp4", "track10.mp4"]
    ∧ natural_sort_key "track10.mp4"
      = [NTok.str ['t', 'r', 'a', 'c', 'k'], NTok.num 10,
         NTok.str ['.', 'm', 'p'], NTok.num 4, NTok.str []]
    ∧ natural_sort_key "TRACK2.MP4" = natural_sort_key "track2.mp4"
    ∧ natLt "track2.mp4" "track10.mp4" = true
    ∧ natLt "track10.mp4" "track2.mp4" = false := by
  decide

/-- Claim C2: should_publish_state is true exactly when the phase, content
id or title differ, the position moved by more than 0.5, the volume by more
than 1, or the configured interval has elapsed since the last publish; with
previous position 10.0 and volume 50, a current position of 10.3 does not
publish before the interval elapses, while 10.6 does. -/
theorem should_publish_state_spec :
    (∀ (cur prev : PlaybackState) (lp now iv cp pp cv pv : ℚ),
      cur.position = MpvData.n cp → prev.position = MpvData.n pp →
      cur.volume = MpvData.n cv → prev.volume = MpvData.n pv →
      (should_publish_state cur prev lp now iv = some true ↔
        (cur.state ≠ prev.state ∨ cur.media_content_id ≠ prev.media_content_id ∨
         cur.media_title ≠ prev.media_title ∨ |cp - pp| > 1/2 ∨ |cv - pv| > 1 ∨
         now - lp ≥ iv)))
    ∧ (∀ (st : String) (cid ttl : Option String) (d1 d2 : MpvData) (lp now iv : ℚ),
        now - lp < iv →
        should_publish_state ⟨st, cid, ttl, MpvData.n 50, MpvData.n (103/10), d1⟩
          ⟨st, cid, ttl, MpvData.n 50, MpvData.n 10, d2⟩ lp now iv = some false)
    ∧ (∀ (st : String) (cid ttl : Option String) (d1 d2 : MpvData) (lp now iv : ℚ),
        should_publish_state ⟨st, cid, ttl, MpvData.n 50, MpvData.n (53/5), d1⟩
          ⟨st, cid, ttl, MpvData.n 50, MpvData.n 10, d2⟩ lp now iv = some true) := by
  refine ⟨?_, ?_, ?_⟩
  · intro cur prev lp now iv cp pp cv pv h1 h2 h3 h4
    simp only [should_publish_state, absGt, pyNum, h1, h2, h3, h4]
    by_cases hs : cur.state = prev.state <;>
      by_cases hc : cur.media_content_id = prev.media_content_id <;>
      by_cases ht : cur.media_title = prev.media_title <;>
      by_cases hp : (2 : ℚ)⁻¹ < |cp - pp| <;>
      by_cases hv : (1 : ℚ) < |cv - pv| <;>
      by_cases htm : iv ≤ now - lp <;>
      simp [hs, hc, ht, hp, hv, htm]
  · intro st cid ttl d1 d2 lp now iv h
    have e1 : decide ((2 : ℚ)⁻¹ < |(103 : ℚ)/10 - 10|) = false := by
      rw [show |(103 : ℚ)/10 - 10| = 3/10 by norm_num]
      norm_num
    have e2 : decide ((1 : ℚ) < (0 : ℚ)) = false := by norm_num
    have e3 : decide (iv ≤ now - lp) = false := decide_eq_false (not_le.mpr h)
    simp [should_publish_state, absGt, pyNum, e1, e2, e3]
  · intro st cid ttl d1 d2 lp now iv
    have e1 : decide ((2 : ℚ)⁻¹ < |(53 : ℚ)/5 - 10|) = true := by
      rw [show |(53 : ℚ)/5 - 10| = 3/5 by norm_num]
      norm_num
    simp [should_publish_state, absGt, pyNum, e1]

/-- Witness for should_publish_state_spec: the characterisation instantiated
at two concrete idle snapshots with zero elapsed time and interval 1. -/
theorem should_publish_state_spec_witness :
    should_publish_state initial_state initial_state 0 0 1 = some true ↔
      (initial_state.state ≠ initial_state.state ∨
       initial_state.media_content_id ≠ initial_state.media_content_id ∨
       initial_state.media_title ≠ initial_state.media_title ∨
       |(0 : ℚ) - 0| > 1/2 ∨ |(100 : ℚ) - 100| > 1 ∨ (0 : ℚ) - 0 ≥ 1) :=
  should_publish_state_spec.1 initial_state initial_state 0 0 1 0 0 100 100 rfl rfl rfl rfl

/-- Claim C3: folding decoded events.  A pause property-change sets the
phase from its payload with a notification only on an actual change; a path
event with a non-empty string payload sets content id and title (the last
path segment) with a notification only on a change, and repeating the same
path event notifies nothing further; time-pos, duration and volume payloads
are stored into position, duration and volume; events that are not
property-change, and unrecognized or absent property names, leave the state
unchanged and raise no error. -/
theorem process_event_spec :
    (∀ (cur : PlaybackState) (b : Bool),
      process_event cur ⟨some "property-change", some "pause", some (MpvData.b b)⟩ =
        some ⟨{ cur with state := if b then "paused" else "playing" },
              decide (cur.state ≠ if b then "paused" else "playing"), false⟩)
    ∧ (∀ (cur : PlaybackState) (p : String), p ≠ "" →
        process_event cur ⟨some "property-change", some "path", some (MpvData.s p)⟩ =
          some ⟨path_update cur p, false,
            decide (cur.media_content_id ≠ some p ∨ cur.media_title ≠ some (pyBasename p))⟩
        ∧ process_event (path_update cur p)
            ⟨some "property-change", some "path", some (MpvData.s p)⟩ =
          some ⟨path_update cur p, false, false⟩)
    ∧ (∀ (cur : PlaybackState) (d : MpvData),
        process_event cur ⟨some "property-change", some "time-pos", some d⟩ =
          some ⟨{ cur with position := d }, false, false⟩
        ∧ process_event cur ⟨some "property-change", some "duration", some d⟩ =
          some ⟨{ cur with duration := d }, false, false⟩
        ∧ process_event cur ⟨some "property-change", some "volume", some d⟩ =
          some ⟨{ cur with volume := d }, false, false⟩)
    ∧ (∀ (cur : PlaybackState) (e : Event), e.event ≠ some "property-change" →
        process_event cur e = some ⟨cur, false, false⟩)
    ∧ (∀ (cur : PlaybackState) (nm : String) (d : Option MpvData),
        nm ∉ (["pause", "path", "time-pos", "duration", "volume"] : List String) →
        process_event cur ⟨some "property-change", some nm, d⟩ = some ⟨cur, false, false⟩)
    ∧ (∀ (cur : PlaybackState) (d : Option MpvData),
        process_event cur ⟨some "property-change", none, d⟩ = some ⟨cur, false, false⟩) := by
  refine ⟨?_, ?_, ?_, ?_, ?_, ?_⟩
  · intro cur b
    obtain ⟨st, mc, mt, v, pos, dur⟩ := cur
    by_cases h : st = (if b then "paused" else "playing") <;>
      cases b <;> simp_all [process_event, truthy]
  · intro cur p hp
    obtain ⟨st, mc, mt, v, pos, dur⟩ := cur
    constructor
    · by_cases h : mc ≠ some p ∨ mt ≠ some (pyBasename p)
      · simp [process_event, truthy, hp, h, path_update]
      · push_neg at h
        simp [process_event, truthy, hp, h.1, h.2, path_update]
    · simp [process_event, truthy, hp, path_update]
  · intro cur d
    refine ⟨?_, ?_, ?_⟩ <;> simp [process_event]
  · intro cur e h
    simp [process_event, h]
  · intro cur nm d h
    simp only [List.mem_cons, List.mem_singleton] at h
    push_neg at h
    obtain ⟨h1, h2, h3, h4, h5⟩ := h
    simp only [process_event, if_true]
    split <;> simp_all
  · intro cur d
    simp [process_event]

/-- Witness for process_event_spec: the path branch instantiated at the
initial state with the concrete path a/b.mp4. -/
theorem process_event_spec_witness :
    process_event initial_state ⟨some "property-change", some "path", some (MpvData.s "a/b.mp4")⟩ =
      some ⟨path_update initial_state "a/b.mp4", false,
        decide (initial_state.media_content_id ≠ some "a/b.mp4" ∨
                initial_state.media_title ≠ some (pyBasename "a/b.mp4"))⟩
    ∧ process_event (path_update initial_state "a/b.mp4")
        ⟨some "property-change", some "path", some (MpvData.s "a/b.mp4")⟩ =
      some ⟨path_update initial_state "a/b.mp4", false, false⟩ :=
  process_event_spec.2.1 initial_state "a/b.mp4" (by decide)

/-- Claim C1 counterexample: with a single subdirectory b containing the
file x.mp4 and a deeper directory b/a containing y.mp4, the depth-first
traversal (each level natural-sorted) visits m/b/x.mp4 before m/b/a/y.mp4,
but the fresh scan of prepare_playlist applies a further global natural
sort to the subdirectory list and outputs m/b/a/y.mp4 first, so the claimed
ordering does not hold. -/
theorem prepare_playlist_subdir_order_counterexample :
    scanSubdirFiles (fun _ => true) "m"
        [FsNode.dir "b" [FsNode.file "x.mp4", FsNode.dir "a" [FsNode.file "y.mp4"]]]
      = ["m/b/x.mp4", "m/b/a/y.mp4"]
    ∧ spec_claimed_playlist (fun _ => true) "m"
        [FsNode.dir "b" [FsNode.file "x.mp4", FsNode.dir "a" [FsNode.file "y.mp4"]]]
      = ["m/b/x.mp4", "m/b/a/y.mp4"]
    ∧ (prepare_playlist ⟨fun _ => true, "m"⟩ true
        ⟨none, some [FsNode.dir "b" [FsNode.file "x.mp4", FsNode.dir "a" [FsNode.file "y.mp4"]]]⟩
        []).playlist
      = ["m/b/a/y.mp4", "m/b/x.mp4"]
    ∧ (prepare_playlist ⟨fun _ => true, "m"⟩ true
        ⟨none, some [FsNode.dir "b" [FsNode.file "x.mp4", FsNode.dir "a" [FsNode.file "y.mp4"]]]⟩
        []).playlist
      ≠ spec_claimed_playlist (fun _ => true) "m"
          [FsNode.dir "b" [FsNode.file "x.mp4", FsNode.dir "a" [FsNode.file "y.mp4"]]] := by
  refine ⟨?_, ?_, ?_, ?_⟩ <;>
    simp [prepare_playlist, prepare_scan, spec_claimed_playlist, scanSubdirFiles, scanRootFiles,
      walkDirs, walkNode, sortPairs, sortByLt, insSorted, fileNamesOf, sortNat, natLt] <;>
    decide

/-- Claim C1 (amended): on every fresh scan the playlist is the
natural-sorted root-level matching files followed by the subdirectory
matching files with a further global natural sort applied to the collected
subdirectory list (not plain traversal order); every root-level entry still
precedes every subdirectory entry. -/
theorem prepare_playlist_scan_order :
    ∀ (cfg : Config) (force : Bool) (fs : FileSys) (cur : List String) (cs : List FsNode),
      fs.media_root = some cs → (force = true ∨ fs.playlist_file = none) →
      (prepare_playlist cfg force fs cur).ok = true →
      (prepare_playlist cfg force fs cur).playlist =
        sortNat (scanRootFiles cfg.file_pattern cfg.media_dir cs)
          ++ sortNat (scanSubdirFiles cfg.file_pattern cfg.media_dir cs) := by
  intro cfg force fs cur cs hroot hfresh hok
  rw [prepare_playlist_fresh cfg force fs cur hfresh] at hok ⊢
  by_cases hnil :
      sortNat (scanRootFiles cfg.file_pattern cfg.media_dir cs)
        ++ sortNat (scanSubdirFiles cfg.file_pattern cfg.media_dir cs) = []
  · simp [prepare_scan, hroot, hnil] at hok
  · simp [prepare_scan, hroot, hnil]

/-- Witness for prepare_playlist_scan_order: the fresh scan of the
two-level example tree produces exactly the two sorted lists appended. -/
theorem prepare_playlist_scan_order_witness :
    (prepare_playlist ⟨fun _ => true, "m"⟩ true
        ⟨none, some [FsNode.dir "b" [FsNode.file "x.mp4", FsNode.dir "a" [FsNode.file "y.mp4"]]]⟩
        []).playlist =
      sortNat (scanRootFiles (fun _ => true) "m"
          [FsNode.dir "b" [FsNode.file "x.mp4", FsNode.dir "a" [FsNode.file "y.mp4"]]])
        ++ sortNat (scanSubdirFiles (fun _ => true) "m"
          [FsNode.dir "b" [FsNode.file "x.mp4", FsNode.dir "a" [FsNode.file "y.mp4"]]]) :=
  prepare_playlist_scan_order ⟨fun _ => true, "m"⟩ true
    ⟨none, some [FsNode.dir "b" [FsNode.file "x.mp4", FsNode.dir "a" [FsNode.file "y.mp4"]]]⟩
    [] [FsNode.dir "b" [FsNode.file "x.mp4", FsNode.dir "a" [FsNode.file "y.mp4"]]]
    rfl (Or.inl rfl)
    (by simp [prepare_playlist, prepare_scan, scanSubdirFiles, scanRootFiles, walkDirs,
          walkNode, sortPairs, sortByLt, insSorted, fileNamesOf, sortNat, natLt]
        decide)

/-- Claim C4 counterexample: the cache branch does not return the lines of
the playlist file verbatim — each line is whitespace-stripped and blank
lines are dropped. -/
theorem prepare_playlist_cache_counterexample :
    (prepare_playlist ⟨fun _ => true, "m"⟩ false ⟨some ["a.mp4", "", " b.mp4 "], none⟩ []).scanned
      = false
    ∧ (prepare_playlist ⟨fun _ => true, "m"⟩ false ⟨some ["a.mp4", "", " b.mp4 "], none⟩ []).playlist
      = ["a.mp4", "b.mp4"]
    ∧ (prepare_playlist ⟨fun _ => true, "m"⟩ false ⟨some ["a.mp4", "", " b.mp4 "], none⟩ []).playlist
      ≠ ["a.mp4", "", " b.mp4 "] := by
  refine ⟨rfl, ?_, ?_⟩ <;> decide

/-- Claim C4 (amended): with force false and an existing playlist file the
builder performs no directory scan and returns the file lines with each
line whitespace-stripped and blank lines dropped (verbatim for files
without extra whitespace, stale entries accepted as-is); a second such call
on the unchanged file returns the identical list whatever the in-memory
playlist was. -/
theorem prepare_playlist_cache_hit :
    ∀ (cfg : Config) (fs : FileSys) (cur cur2 : List String) (lines : List String),
      fs.playlist_file = some lines →
      (prepare_playlist cfg false fs cur).scanned = false
      ∧ (prepare_playlist cfg false fs cur).ok = true
      ∧ (prepare_playlist cfg false fs cur).playlist
        = (lines.map pyStrip).filter (fun l => l ≠ "")
      ∧ (prepare_playlist cfg false fs cur).playlist_file_after = some lines
      ∧ (prepare_playlist cfg false fs cur).playlist
        = (prepare_playlist cfg false fs cur2).playlist := by
  intro cfg fs cur cur2 lines h
  obtain ⟨pf, mr⟩ := fs
  simp only at h
  subst h
  simp [prepare_playlist]

/-- Witness for prepare_playlist_cache_hit at a concrete two-line file. -/
theorem prepare_playlist_cache_hit_witness :
    (prepare_playlist ⟨fun _ => true, "m"⟩ false ⟨some ["a.mp4", "b.mp4"], none⟩ []).scanned = false
    ∧ (prepare_playlist ⟨fun _ => true, "m"⟩ false ⟨some ["a.mp4", "b.mp4"], none⟩ []).ok = true
    ∧ (prepare_playlist ⟨fun _ => true, "m"⟩ false ⟨some ["a.mp4", "b.mp4"], none⟩ []).playlist
      = (["a.mp4", "b.mp4"].map pyStrip).filter (fun l => l ≠ "")
    ∧ (prepare_playlist ⟨fun _ => true, "m"⟩ false ⟨some ["a.mp4", "b.mp4"], none⟩ []).playlist_file_after
      = some ["a.mp4", "b.mp4"]
    ∧ (prepare_playlist ⟨fun _ => true, "m"⟩ false ⟨some ["a.mp4", "b.mp4"], none⟩ []).playlist
      = (prepare_playlist ⟨fun _ => true, "m"⟩ false ⟨some ["a.mp4", "b.mp4"], none⟩ ["stale"]).playlist :=
  prepare_playlist_cache_hit ⟨fun _ => true, "m"⟩ ⟨some ["a.mp4", "b.mp4"], none⟩ [] ["stale"]
    ["a.mp4", "b.mp4"] rfl

/-- Claim C5 counterexample: when a playlist file exists and force is
false, the builder succeeds from the cache even though the media directory
does not exist, so it does not fail with DirectoryNotFoundError exactly
when the media directory is missing. -/
theorem prepare_playlist_missing_dir_counterexample :
    (prepare_playlist ⟨fun _ => true, "m"⟩ false ⟨some ["x.mp4"], none⟩ []).ok = true
    ∧ (prepare_playlist ⟨fun _ => true, "m"⟩ false ⟨some ["x.mp4"], none⟩ []).err = none
    ∧ (⟨some ["x.mp4"], none⟩ : FileSys).media_root = none := by
  refine ⟨rfl, rfl, rfl⟩

/-- Claim C5 (amended): on the scanning path (force true or no cached
playlist file) the builder fails with DirectoryNotFoundError exactly when
the media directory does not exist and with NoMatchError exactly when the
scan yields zero matching files; a failure is returned as an unsuccessful
result value (the in-memory playlist is left untouched), never an
exception. -/
theorem prepare_playlist_errors :
    ∀ (cfg : Config) (force : Bool) (fs : FileSys) (cur : List String),
      (force = true ∨ fs.playlist_file = none) →
      ((prepare_playlist cfg force fs cur).err = some PrepErr.dirNotFound ↔
        fs.media_root = none)
      ∧ ((prepare_playlist cfg force fs cur).err = some PrepErr.noMatch ↔
          (∃ cs, fs.media_root = some cs
            ∧ sortNat (scanRootFiles cfg.file_pattern cfg.media_dir cs)
              ++ sortNat (scanSubdirFiles cfg.file_pattern cfg.media_dir cs) = []))
      ∧ ((prepare_playlist cfg force fs cur).ok = false ↔
          (prepare_playlist cfg force fs cur).err ≠ none)
      ∧ ((prepare_playlist cfg force fs cur).err ≠ none →
          (prepare_playlist cfg force fs cur).playlist = cur) := by
  intro cfg force fs cur hfresh
  rw [prepare_playlist_fresh cfg force fs cur hfresh]
  rcases hmr : fs.media_root with _ | cs
  · simp [prepare_scan, hmr]
  · by_cases hnil :
        sortNat (scanRootFiles cfg.file_pattern cfg.media_dir cs)
          ++ sortNat (scanSubdirFiles cfg.file_pattern cfg.media_dir cs) = []
    · obtain ⟨ha, hb⟩ := List.append_eq_nil.mp hnil
      simp [prepare_scan, hmr, hnil, ha, hb]
    · simp [prepare_scan, hmr, hnil]
      intro h1 h2
      exact hnil (by rw [h1, h2]; rfl)

/-- Witness for prepare_playlist_errors: a forced build over a missing
media directory reports DirectoryNotFoundError as a result value. -/
theorem prepare_playlist_errors_witness :
    ((prepare_playlist ⟨fun _ => true, "m"⟩ true ⟨none, none⟩ ["keep"]).err
        = some PrepErr.dirNotFound ↔ (⟨none, none⟩ : FileSys).media_root = none)
    ∧ ((prepare_playlist ⟨fun _ => true, "m"⟩ true ⟨none, none⟩ ["keep"]).err
        = some PrepErr.noMatch ↔
        (∃ cs, (⟨none, none⟩ : FileSys).media_root = some cs
          ∧ sortNat (scanRootFiles (fun _ => true) "m" cs)
            ++ sortNat (scanSubdirFiles (fun _ => true) "m" cs) = []))
    ∧ ((prepare_playlist ⟨fun _ => true, "m"⟩ true ⟨none, none⟩ ["keep"]).ok = false ↔
        (prepare_playlist ⟨fun _ => true, "m"⟩ true ⟨none, none⟩ ["keep"]).err ≠ none)
    ∧ ((prepare_playlist ⟨fun _ => true, "m"⟩ true ⟨none, none⟩ ["keep"]).err ≠ none →
        (prepare_playlist ⟨fun _ => true, "m"⟩ true ⟨none, none⟩ ["keep"]).playlist = ["keep"]) :=
  prepare_playlist_errors ⟨fun _ => true, "m"⟩ true ⟨none, none⟩ ["keep"] (Or.inl rfl)

/-- Helper: overwriting an idle phase with idle is the identity on the
snapshot. -/
theorem playback_state_set_idle (s : PlaybackState) (h : s.state = "idle") :
    { s with state := "idle" } = s := by
  cases s
  simp_all

/-- Helper: every failing return of start_mpv_drm leaves the playback
snapshot of an idle controller unchanged (the only write on a failure path
is the idle reset in the except branch). -/
theorem start_mpv_drm_failure_state (cfg : Config) (w : StartWorld) (fs : FileSys) (c : Ctrl)
    (hidle : c.current_state.state = "idle")
    (hfail : (start_mpv_drm cfg w fs c).1 = false) :
    (start_mpv_drm cfg w fs c).2.1.current_state = c.current_state := by
  obtain ⟨lo, po, sa, ic⟩ := w
  by_cases h1 : c.mpv_process = some true
  · simp [start_mpv_drm, h1] at hfail
  · by_cases h2 : fs.playlist_file = none
    · by_cases h3 : (prepare_playlist cfg true fs c.playlist).ok = true
      · cases po <;> cases sa <;> cases ic <;>
          simp_all [start_mpv_drm, playback_state_set_idle c.current_state hidle]
      · simp_all [start_mpv_drm]
    · cases po <;> cases sa <;> cases ic <;>
        simp_all [start_mpv_drm, playback_state_set_idle c.current_state hidle]

/-- Claim C6: a failing play command reports failure and leaves the
playback snapshot of an idle controller unchanged (phase still idle); in
particular over an existing but empty media directory with no cached
playlist the build fails with NoMatchError and play reports failure. -/
theorem handle_play_failure :
    (∀ (cfg : Config) (w : StartWorld) (fs : FileSys) (c : Ctrl),
      c.current_state.state = "idle" →
      (handle_play_command cfg w fs c).1 = false →
      (handle_play_command cfg w fs c).2.1.current_state = c.current_state)
    ∧ (∀ (cfg : Config) (w : StartWorld) (c : Ctrl),
        (handle_play_command cfg w ⟨none, some []⟩ c).1 = false
        ∧ (prepare_playlist cfg false ⟨none, some []⟩ c.playlist).err = some PrepErr.noMatch) := by
  constructor
  · intro cfg w fs c hidle hfail
    unfold handle_play_command at hfail ⊢
    by_cases hok : (prepare_playlist cfg false fs c.playlist).ok = true
    · simp only [hok, if_true] at hfail ⊢
      exact start_mpv_drm_failure_state cfg w _ _ hidle hfail
    · simp [hok]
  · intro cfg w c
    constructor
    · simp [handle_play_command, prepare_playlist, prepare_scan, scanRootFiles,
        scanSubdirFiles, walkDirs, sortPairs, sortByLt, sortNat]
    · simp [prepare_playlist, prepare_scan, scanRootFiles,
        scanSubdirFiles, walkDirs, sortPairs, sortByLt, sortNat]

/-- Witness for handle_play_failure: a play command that fails because the
player process cannot be spawned leaves the concrete idle controller
snapshot untouched. -/
theorem handle_play_failure_witness :
    (handle_play_command ⟨fun _ => true, "m"⟩ ⟨true, false, true, true⟩
        ⟨some ["x.mp4"], none⟩ ⟨initial_state, false, none, false, false, false, []⟩).2.1.current_state
      = (⟨initial_state, false, none, false, false, false, []⟩ : Ctrl).current_state :=
  handle_play_failure.1 ⟨fun _ => true, "m"⟩ ⟨true, false, true, true⟩
    ⟨some ["x.mp4"], none⟩ ⟨initial_state, false, none, false, false, false, []⟩
    rfl (by decide)

/-- Claim C7: stop_mpv is total (teardown never raises: terminate errors
are swallowed and a wait timeout escalates to kill); after every call no
process handle remains, and when a handle existed the log sink is closed,
playback is marked stopped, the phase is reset to idle, termination starts
with a graceful terminate, the 5 second wait happens unless terminate
raised, and the forced kill happens exactly when the wait timed out. -/
theorem stop_mpv_spec :
    ∀ (c : Ctrl) (w : StopWorld),
      (stop_mpv c w).1.mpv_process = none
      ∧ (c.mpv_process ≠ none →
          (stop_mpv c w).1.mpv_log_handle = false
          ∧ (stop_mpv c w).1.current_state.state = "idle"
          ∧ (stop_mpv c w).1.is_playing = false
          ∧ (stop_mpv c w).2.head? = some StopAct.terminate
          ∧ (StopAct.wait ∈ (stop_mpv c w).2 ↔ w.terminate_raises = false)
          ∧ (StopAct.kill ∈ (stop_mpv c w).2 ↔
              (w.terminate_raises = false ∧ w.exits_within_5 = false))) := by
  intro c w
  obtain ⟨cs, ip, mp, lh, so, ob, pl⟩ := c
  obtain ⟨tr, e5⟩ := w
  cases mp <;> cases tr <;> cases e5 <;> simp [stop_mpv]

/-- Witness for stop_mpv_spec: stopping a live handle whose process
ignores the graceful request within 5 seconds escalates to kill and
resets the state. -/
theorem stop_mpv_spec_witness :
    (stop_mpv ⟨initial_state, true, some true, true, true, false, ["x"]⟩ ⟨false, false⟩).1.mpv_log_handle = false
    ∧ (stop_mpv ⟨initial_state, true, some true, true, true, false, ["x"]⟩ ⟨false, false⟩).1.current_state.state = "idle"
    ∧ (stop_mpv ⟨initial_state, true, some true, true, true, false, ["x"]⟩ ⟨false, false⟩).1.is_playing = false
    ∧ (stop_mpv ⟨initial_state, true, some true, true, true, false, ["x"]⟩ ⟨false, false⟩).2.head? = some StopAct.terminate
    ∧ (StopAct.wait ∈ (stop_mpv ⟨initial_state, true, some true, true, true, false, ["x"]⟩ ⟨false, false⟩).2 ↔
        (⟨false, false⟩ : StopWorld).terminate_raises = false)
    ∧ (StopAct.kill ∈ (stop_mpv ⟨initial_state, true, some true, true, true, false, ["x"]⟩ ⟨false, false⟩).2 ↔
        ((⟨false, false⟩ : StopWorld).terminate_raises = false
          ∧ (⟨false, false⟩ : StopWorld).exits_within_5 = false)) :=
  (stop_mpv_spec ⟨initial_state, true, some true, true, true, false, ["x"]⟩ ⟨false, false⟩).2
    (by decide)

/-- Claim C8: the controller stores at most one process handle (a single
optional field), and calling start while the stored handle is live (poll
still running) changes nothing and returns success. -/
theorem start_mpv_drm_idempotent :
    ∀ (cfg : Config) (w : StartWorld) (fs : FileSys) (c : Ctrl),
      c.mpv_process = some true →
      start_mpv_drm cfg w fs c = (true, c, fs) := by
  intro cfg w fs c h
  simp [start_mpv_drm, h]

/-- Witness for start_mpv_drm_idempotent at a concrete live controller. -/
theorem start_mpv_drm_idempotent_witness :
    start_mpv_drm ⟨fun _ => true, "m"⟩ ⟨true, true, true, true⟩ ⟨none, none⟩
        ⟨initial_state, true, some true, true, true, false, ["x"]⟩
      = (true, ⟨initial_state, true, some true, true, true, false, ["x"]⟩, ⟨none, none⟩) :=
  start_mpv_drm_idempotent ⟨fun _ => true, "m"⟩ ⟨true, true, true, true⟩ ⟨none, none⟩
    ⟨initial_state, true, some true, true, true, false, ["x"]⟩ rfl

/-- Claim C10: when no process handle is stored, stop_mpv leaves the whole
playback snapshot (phase, content id, title, volume, position, duration)
unchanged and performs no termination step; the idle reset happens only on
the branch where a handle existed. -/
theorem stop_mpv_no_handle_frame :
    ∀ (c : Ctrl) (w : StopWorld),
      c.mpv_process = none →
      (stop_mpv c w).1.current_state = c.current_state
      ∧ (stop_mpv c w).2 = [] := by
  intro c w h
  simp [stop_mpv, h]

/-- Witness for stop_mpv_no_handle_frame at a concrete idle controller. -/
theorem stop_mpv_no_handle_frame_witness :
    (stop_mpv ⟨initial_state, false, none, false, false, false, []⟩ ⟨false, true⟩).1.current_state
      = (⟨initial_state, false, none, false, false, false, []⟩ : Ctrl).current_state
    ∧ (stop_mpv ⟨initial_state, false, none, false, false, false, []⟩ ⟨false, true⟩).2 = [] :=
  stop_mpv_no_handle_frame ⟨initial_state, false, none, false, false, false, []⟩ ⟨false, true⟩ rfl

end Mqtt
